import Mathlib

/-!
Verification of the Streamable HTTP transport layer of the MCP server
(`mcp_streamable_server.py`).  The Python code is shallowly embedded:
JSON values become an inductive type, Python dicts become association
lists, the mutable session table is threaded explicitly, the random
`uuid.uuid4()` session identifier and the event-loop clock become
explicit parameters, and the aiohttp responses become a record of
status, headers and body.  Messages are modelled as JSON objects
(the JSON-RPC envelope shape); each handler mirrors the corresponding
Python method line by line.
-/

namespace MCPServer

/-- Json mirrors the values produced by Python `json.loads`: null, booleans,
numbers (modelled as rationals), strings, arrays and objects. -/
inductive Json where
  | null
  | bool (b : Bool)
  | num (q : Rat)
  | str (s : String)
  | arr (elems : List Json)
  | obj (fields : List (String × Json))

/-- Jobj is a decoded JSON object, i.e. a Python dict with string keys. -/
abbrev Jobj := List (String × Json)

/-- lookupKey models Python `d.get(k)` returning an optional value. -/
def lookupKey (o : Jobj) (k : String) : Option Json :=
  List.lookup k o

/-- hasKey models the Python test `k in d` on a dict. -/
def hasKey (o : Jobj) (k : String) : Bool :=
  (lookupKey o k).isSome

/-- getKey models Python `d.get(k)` where an absent key yields `None`
(rendered as JSON null). -/
def getKey (o : Jobj) (k : String) : Json :=
  (lookupKey o k).getD Json.null

/-- getKeyD models Python `d.get(k, default)`. -/
def getKeyD (o : Jobj) (k : String) (d : Json) : Json :=
  (lookupKey o k).getD d

/-- delKey models Python `del d[k]` (and is a no-op when the key is absent). -/
def delKey (o : Jobj) (k : String) : Jobj :=
  o.filter (fun kv => kv.1 != k)

/-- setKey models Python `d[k] = v`: replace the binding if the key exists,
append it otherwise. -/
def setKey (o : Jobj) (k : String) (v : Json) : Jobj :=
  match o with
  | [] => [(k, v)]
  | (k₀, v₀) :: rest => if k₀ = k then (k, v) :: rest else (k₀, v₀) :: setKey rest k v

/-- jsonEqStr models the Python comparison `x == "lit"` between a decoded
JSON value and a string literal: true exactly when `x` is that string. -/
def jsonEqStr : Json → String → Bool
  | Json.str t, s => t == s
  | _, _ => false

/-- pyTruthyStr models Python truthiness of an `Optional[str]`:
`None` and the empty string are falsy. -/
def pyTruthyStr : Option String → Bool
  | none => false
  | some s => s != ""

/-- pyTruthyJson models Python truthiness of a decoded JSON value. -/
def pyTruthyJson : Json → Bool
  | Json.null => false
  | Json.bool b => b
  | Json.num q => q != 0
  | Json.str s => s != ""
  | Json.arr xs => !xs.isEmpty
  | Json.obj fs => !fs.isEmpty

/-- digitCh maps a digit to its decimal character, as in Python number
formatting. -/
def digitCh (d : Nat) : Char := Char.ofNat (48 + d % 10)

/-- natDigitsCore renders the decimal digits of `n`, with structural fuel so
that the definition reduces in the kernel; `natDigits` supplies enough fuel. -/
def natDigitsCore : Nat → Nat → List Char
  | 0, _ => []
  | fuel + 1, n => if n < 10 then [digitCh n] else natDigitsCore fuel (n / 10) ++ [digitCh (n % 10)]

/-- natDigits is the decimal digit list of a natural number. -/
def natDigits (n : Nat) : List Char := natDigitsCore (n + 1) n

/-- natStr models Python decimal formatting of a non-negative integer,
as used in the f-string building SSE event identifiers. -/
def natStr (n : Nat) : String := String.mk (natDigits n)

/-- intStr models Python decimal formatting of an integer. -/
def intStr (n : Int) : String :=
  if n < 0 then "-" ++ natStr (-n).toNat else natStr n.toNat

/-- ratStr models the textual rendering of a JSON number; the exact float
formatting of Python is abstracted (no claim inspects these characters). -/
def ratStr (q : Rat) : String :=
  if q.den = 1 then intStr q.num else intStr q.num ++ "/" ++ natStr q.den

mutual

/-- jsonRender models Python `json.dumps` on a decoded value; whitespace and
escape details of the real serializer are abstracted, the structure is kept. -/
def jsonRender : Json → String
  | Json.null => "null"
  | Json.bool true => "true"
  | Json.bool false => "false"
  | Json.num q => ratStr q
  | Json.str s => "\"" ++ s ++ "\""
  | Json.arr xs => "[" ++ jsonRenderArr xs ++ "]"
  | Json.obj fs => "\x7b" ++ jsonRenderObj fs ++ "\x7d"

/-- jsonRenderArr renders the comma-separated elements of a JSON array. -/
def jsonRenderArr : List Json → String
  | [] => ""
  | [x] => jsonRender x
  | x :: y :: xs => jsonRender x ++ ", " ++ jsonRenderArr (y :: xs)

/-- jsonRenderObj renders the comma-separated fields of a JSON object. -/
def jsonRenderObj : List (String × Json) → String
  | [] => ""
  | [(k, v)] => "\"" ++ k ++ "\": " ++ jsonRender v
  | (k, v) :: p :: fs => "\"" ++ k ++ "\": " ++ jsonRender v ++ ", " ++ jsonRenderObj (p :: fs)

end

/-- pyStr models Python `str(x)` on a decoded JSON value, as used by the
f-strings of the server (container rendering is abstracted by `jsonRender`). -/
def pyStr : Json → String
  | Json.null => "None"
  | Json.bool true => "True"
  | Json.bool false => "False"
  | Json.num q => ratStr q
  | Json.str s => s
  | Json.arr xs => jsonRender (Json.arr xs)
  | Json.obj fs => jsonRender (Json.obj fs)

/-- jsonAsStr extracts the underlying string of a JSON string value (the
server only applies it to values it created as strings). -/
def jsonAsStr : Json → String
  | Json.str s => s
  | j => pyStr j

/-- strContains models the Python substring test `needle in hay`. -/
def strContains (hay needle : String) : Bool :=
  hay.data.tails.any (fun t => needle.data.isPrefixOf t)

/-- safe_origins is the allow-list of `is_safe_origin`
(`mcp_streamable_server.py`, lines 34-40). -/
def safe_origins : List String :=
  ["http://localhost:8080", "http://127.0.0.1:8080", "http://localhost",
   "http://127.0.0.1", "null"]

/-- strStartsWith models Python `s.startswith(p)`. -/
def strStartsWith (s p : String) : Bool :=
  p.data.isPrefixOf s.data

/-- is_safe_origin embeds `MCPStreamableServer.is_safe_origin` (lines 31-41):
membership in the allow-list or a loopback host prefix. -/
def is_safe_origin (origin : String) : Bool :=
  safe_origins.contains origin
    || strStartsWith origin "http://localhost:"
    || strStartsWith origin "http://127.0.0.1:"

/-- origin_rejected is the gate at the top of `handle_post` (line 76):
`if origin and not self.is_safe_origin(origin)`. -/
def origin_rejected (origin : Option String) : Bool :=
  pyTruthyStr origin && !is_safe_origin (origin.getD "")

/-- Session is the record stored in `self.sessions[session_id]`
(lines 223-228): protocol version, client info, capabilities and the
event-loop timestamp of creation. -/
structure Session where
  protocol_version : Json
  client_info : Json
  capabilities : Json
  created_at : Nat

/-- Sessions is the session table `self.sessions : Dict[str, Dict]`,
threaded explicitly through the handlers. -/
abbrev Sessions := List (String × Session)

/-- hasSession models `session_id in self.sessions`. -/
def hasSession (sessions : Sessions) (sid : String) : Bool :=
  (List.lookup sid sessions).isSome

/-- setSession models `self.sessions[sid] = record` (replace or insert). -/
def setSession (sessions : Sessions) (sid : String) (v : Session) : Sessions :=
  match sessions with
  | [] => [(sid, v)]
  | (k₀, v₀) :: rest => if k₀ = sid then (sid, v) :: rest else (k₀, v₀) :: setSession rest sid v

/-- delSession models `del self.sessions[sid]`. -/
def delSession (sessions : Sessions) (sid : String) : Sessions :=
  sessions.filter (fun kv => kv.1 != sid)

/-- SSEFrame is one emitted unit of the event stream: the sampled event-loop
time in milliseconds, the enumeration index, and the message of the frame
(`create_sse_response`, lines 416-424). -/
structure SSEFrame where
  time : Nat
  index : Nat
  message : Jobj

/-- frameId renders the `id:` token of a frame, the f-string
`msg-{int(time*1000)}-{i}` of line 422. -/
def frameId (f : SSEFrame) : String :=
  "msg-" ++ natStr f.time ++ "-" ++ natStr f.index

/-- frameText renders one SSE event exactly as written on line 423:
an `id:` line, a `data:` line with the serialized message, a blank line. -/
def frameText (f : SSEFrame) : String :=
  "id: " ++ frameId f ++ "\ndata: " ++ jsonRender (Json.obj f.message) ++ "\n\n"

/-- idPair is the numeric content of a frame identifier. -/
def idPair (f : SSEFrame) : Nat × Nat := (f.time, f.index)

/-- idLt is the strict lexicographic order on frame identifier pairs:
earlier sampled time, or equal time and smaller emission index. -/
def idLt (p q : Nat × Nat) : Prop :=
  p.1 < q.1 ∨ (p.1 = q.1 ∧ p.2 < q.2)

/-- RespBody is the body of a modelled HTTP response: empty, plain text,
a JSON document, or a stream of SSE frames. -/
inductive RespBody where
  | empty
  | textBody (s : String)
  | jsonBody (j : Json)
  | sseBody (frames : List SSEFrame)

/-- HttpResponse models the aiohttp response surface relevant to the
claims: status code, headers, body. -/
structure HttpResponse where
  status : Nat
  headers : List (String × String)
  body : RespBody

/-- jsonResp models `web.json_response(j, status=...)`. -/
def jsonResp (status : Nat) (j : Json) : HttpResponse :=
  ⟨status, [], RespBody.jsonBody j⟩

/-- PyBody is the decoded POST body: a single message or a batch. The
embedding restricts batch elements to JSON objects (dict messages), the
domain of every claim; non-dict elements are outside the modelled domain. -/
inductive PyBody where
  | single (m : Jobj)
  | batch (ms : List Jobj)

/-- sseBaseHeaders are the headers of the `web.StreamResponse`
(lines 392-399). -/
def sseBaseHeaders : List (String × String) :=
  [("Content-Type", "text/event-stream; charset=utf-8"),
   ("Cache-Control", "no-cache"),
   ("Connection", "keep-alive"),
   ("Access-Control-Allow-Origin", "*"),
   ("Access-Control-Allow-Headers", "Accept, Content-Type, Mcp-Session-Id, Last-Event-ID"),
   ("Access-Control-Allow-Methods", "GET, POST, DELETE, OPTIONS")]

/-- firstSessionId models the loop of lines 404-407: the first message whose
`_session_id` field is truthy supplies the session header of the stream. -/
def firstSessionId : List Jobj → Option String
  | [] => none
  | m :: ms =>
      if pyTruthyJson (getKey m "_session_id") then some (jsonAsStr (getKey m "_session_id"))
      else firstSessionId ms

/-- sseFramesFrom models the emission loop of lines 416-424 starting at
enumeration index `i`: each message loses its `_session_id` service field and
is framed with the event-loop time (`clock`) sampled at its iteration. -/
def sseFramesFrom (clock : Nat → Nat) : Nat → List Jobj → List SSEFrame
  | _, [] => []
  | i, m :: ms => ⟨clock i, i, delKey m "_session_id"⟩ :: sseFramesFrom clock (i + 1) ms

/-- sseFrames is the frame sequence of one stream (`enumerate(messages)`). -/
def sseFrames (clock : Nat → Nat) (messages : List Jobj) : List SSEFrame :=
  sseFramesFrom clock 0 messages

/-- create_sse_response embeds `MCPStreamableServer.create_sse_response`
(lines 387-436): a 200 streaming response whose headers gain
`Mcp-Session-Id` when some message carries a truthy `_session_id`, and whose
body is the framed message sequence.  The listen-mode sleep and the final
`write_eof` are real-time effects outside the model. -/
def create_sse_response (clock : Nat → Nat) (messages : List Jobj)
    (_session_id : Option String) : HttpResponse :=
  ⟨200,
   sseBaseHeaders ++
     (match firstSessionId messages with
      | some s => [("Mcp-Session-Id", s)]
      | none => []),
   RespBody.sseBody (sseFrames clock messages)⟩

/-- errorResponse is the JSON-RPC error envelope built at lines 193-200,
208-215 and 358-365. -/
def errorResponse (request_id : Json) (code : Int) (message : String) : Jobj :=
  [("jsonrpc", Json.str "2.0"),
   ("id", request_id),
   ("error", Json.obj [("code", Json.num code), ("message", Json.str message)])]

/-- serverCapabilities is the capabilities literal of lines 237-248. -/
def serverCapabilities : Json :=
  Json.obj
    [("tools", Json.obj [("listChanged", Json.bool false)]),
     ("resources", Json.obj [("subscribe", Json.bool false), ("listChanged", Json.bool false)]),
     ("prompts", Json.obj [("listChanged", Json.bool false)])]

/-- initializeResult is the response dict returned by `handle_initialize`
(lines 232-255), including the `_session_id` service field. -/
def initializeResult (request_id : Json) (sid : String) : Jobj :=
  [("jsonrpc", Json.str "2.0"),
   ("id", request_id),
   ("result", Json.obj
     [("protocolVersion", Json.str "2025-03-26"),
      ("capabilities", serverCapabilities),
      ("serverInfo", Json.obj
        [("name", Json.str "MCP Vector Search Server"),
         ("version", Json.str "1.0.0")])]),
   ("_session_id", Json.str sid)]

/-- mkSession is the record stored by `handle_initialize` (lines 223-228). -/
def mkSession (params : Jobj) (now : Nat) : Session :=
  { protocol_version := getKeyD params "protocolVersion" (Json.str "2025-03-26")
    client_info := getKeyD params "clientInfo" (Json.obj [])
    capabilities := getKeyD params "capabilities" (Json.obj [])
    created_at := now }

/-- handle_initialize embeds `MCPStreamableServer.handle_initialize`
(lines 217-255).  The random `str(uuid.uuid4())` of `create_session_id` is
the explicit parameter `genId`, the event-loop time is `now`. -/
def handle_initialize (genId : String) (now : Nat) (params : Jobj)
    (request_id : Json) (session_id : Option String) (sessions : Sessions) :
    Jobj × Sessions :=
  let sid := if pyTruthyStr session_id then session_id.getD "" else genId
  (initializeResult request_id sid, setSession sessions sid (mkSession params now))

/-- toolsListResult is the static tools description of lines 259-293. -/
def toolsListResult : Json :=
  Json.obj
    [("tools", Json.arr
      [Json.obj
        [("name", Json.str "search_documents"),
         ("description", Json.str "Поиск по документам в векторной базе данных"),
         ("inputSchema", Json.obj
           [("type", Json.str "object"),
            ("properties", Json.obj
              [("query", Json.obj
                [("type", Json.str "string"),
                 ("description", Json.str "Поисковый запрос")]),
               ("limit", Json.obj
                [("type", Json.str "integer"),
                 ("description", Json.str "Максимальное количество результатов"),
                 ("default", Json.num 5)])]),
            ("required", Json.arr [Json.str "query"])])],
       Json.obj
        [("name", Json.str "get_server_info"),
         ("description", Json.str "Получить информацию о сервере"),
         ("inputSchema", Json.obj
           [("type", Json.str "object"),
            ("properties", Json.obj [])])]])]

/-- handle_list_tools embeds lines 257-293. -/
def handle_list_tools (request_id : Json) : Jobj :=
  [("jsonrpc", Json.str "2.0"), ("id", request_id), ("result", toolsListResult)]

/-- mock_results is the literal of lines 307-318, with the query folded in by
the f-strings. -/
def mock_results (query : String) : List Json :=
  [Json.obj
    [("content", Json.str ("Найденный документ 1 по запросу \x27" ++ query ++ "\x27")),
     ("score", Json.num (95/100)),
     ("metadata", Json.obj [("source", Json.str "doc1.pdf"), ("page", Json.num 1)])],
   Json.obj
    [("content", Json.str ("Найденный документ 2 по запросу \x27" ++ query ++ "\x27")),
     ("score", Json.num (87/100)),
     ("metadata", Json.obj [("source", Json.str "doc2.pdf"), ("page", Json.num 3)])]]

/-- pySliceTo models the Python slice `xs[:n]` for an integer bound,
including the negative-bound convention. -/
def pySliceTo (xs : List Json) (n : Int) : List Json :=
  xs.take (if 0 ≤ n then n else (xs.length : Int) + n).toNat

/-- search_results is `mock_results[:limit]` of line 320. -/
def search_results (query : String) (limit : Int) : List Json :=
  pySliceTo (mock_results query) limit

/-- toolTextResponse is the result envelope of lines 322-333 and 345-356:
a single text content item carrying serialized data. -/
def toolTextResponse (request_id : Json) (text : String) : Jobj :=
  [("jsonrpc", Json.str "2.0"),
   ("id", request_id),
   ("result", Json.obj
     [("content", Json.arr [Json.obj [("type", Json.str "text"), ("text", Json.str text)]])])]

/-- serverInfoJson is the info literal of lines 336-343. -/
def serverInfoJson : Json :=
  Json.obj
    [("name", Json.str "MCP Streamable HTTP Vector Search Server"),
     ("version", Json.str "1.0.0"),
     ("status", Json.str "running"),
     ("transport", Json.str "streamable_http"),
     ("port", Json.num 8080),
     ("capabilities", Json.arr [Json.str "search", Json.str "info"])]

/-- jsonInt? extracts the Python int usable as a slice bound: an integral
JSON number, or a boolean (Python bool is an int).  Anything else raises a
TypeError in the source, modelled as `none`. -/
def jsonInt? : Json → Option Int
  | Json.num q => if q.den = 1 then some q.num else none
  | Json.bool b => some (if b then 1 else 0)
  | _ => none

/-- handle_call_tool embeds `MCPStreamableServer.handle_call_tool`
(lines 295-365).  `Except.error` models an uncaught Python exception
(the human-readable text of the exception is abstracted); it is converted to
a -32603 response by the caller, like the `except` clause of
`process_jsonrpc_message`. -/
def handle_call_tool (params : Jobj) (request_id : Json) : Except String Jobj :=
  let tool_name := getKey params "name"
  let argumentsJ := getKeyD params "arguments" (Json.obj [])
  if jsonEqStr tool_name "search_documents" then
    match argumentsJ with
    | Json.obj arguments =>
        let queryJ := getKeyD arguments "query" (Json.str "")
        match jsonInt? (getKeyD arguments "limit" (Json.num 5)) with
        | some limit =>
            Except.ok (toolTextResponse request_id
              (jsonRender (Json.arr (search_results (pyStr queryJ) limit))))
        | none => Except.error "TypeError: slice indices must be integers"
    | _ => Except.error "AttributeError: arguments has no attribute get"
  else if jsonEqStr tool_name "get_server_info" then
    Except.ok (toolTextResponse request_id (jsonRender serverInfoJson))
  else
    Except.ok (errorResponse request_id (-32601) ("Unknown tool: " ++ pyStr tool_name))

/-- handle_list_resources embeds lines 367-375. -/
def handle_list_resources (request_id : Json) : Jobj :=
  [("jsonrpc", Json.str "2.0"), ("id", request_id),
   ("result", Json.obj [("resources", Json.arr [])])]

/-- handle_list_prompts embeds lines 377-385. -/
def handle_list_prompts (request_id : Json) : Jobj :=
  [("jsonrpc", Json.str "2.0"), ("id", request_id),
   ("result", Json.obj [("prompts", Json.arr [])])]

/-- process_jsonrpc_message embeds `MCPStreamableServer.process_jsonrpc_message`
(lines 171-215): a message with a `method` key is dispatched (whether or not
it has an `id`), anything else produces no response.  A handler exception is
converted to an internal-error response by the `except` clause. -/
def process_jsonrpc_message (genId : String) (now : Nat) (message : Jobj)
    (session_id : Option String) (sessions : Sessions) : Option Jobj × Sessions :=
  if hasKey message "method" then
    let methodJ := getKey message "method"
    let request_id := getKey message "id"
    if jsonEqStr methodJ "initialize" then
      match getKeyD message "params" (Json.obj []) with
      | Json.obj params =>
          let pr := handle_initialize genId now params request_id session_id sessions
          (some pr.1, pr.2)
      | _ => (some (errorResponse request_id (-32603)
               "Internal error: params has no attribute get"), sessions)
    else if jsonEqStr methodJ "tools/list" then
      (some (handle_list_tools request_id), sessions)
    else if jsonEqStr methodJ "tools/call" then
      match getKeyD message "params" (Json.obj []) with
      | Json.obj params =>
          (match handle_call_tool params request_id with
           | Except.ok r => (some r, sessions)
           | Except.error e =>
               (some (errorResponse request_id (-32603) ("Internal error: " ++ e)), sessions))
      | _ => (some (errorResponse request_id (-32603)
               "Internal error: params has no attribute get"), sessions)
    else if jsonEqStr methodJ "resources/list" then
      (some (handle_list_resources request_id), sessions)
    else if jsonEqStr methodJ "prompts/list" then
      (some (handle_list_prompts request_id), sessions)
    else
      (some (errorResponse request_id (-32601) ("Method not found: " ++ pyStr methodJ)), sessions)
  else
    (none, sessions)

/-- processMessages is the batch loop of lines 107-111: every element is
processed in order against the threaded session table, and the non-`None`
results are collected. -/
def processMessages (genId : String) (now : Nat) (session_id : Option String) :
    Sessions → List Jobj → List Jobj × Sessions
  | sessions, [] => ([], sessions)
  | sessions, m :: ms =>
      let pr := process_jsonrpc_message genId now m session_id sessions
      let rest := processMessages genId now session_id pr.2 ms
      (match pr.1 with
       | some r => r :: rest.1
       | none => rest.1, rest.2)

/-- optObjTruthy models Python truthiness of the `Optional[dict]` result:
`None` and the empty dict are falsy. -/
def optObjTruthy : Option Jobj → Bool
  | none => false
  | some r => !r.isEmpty

/-- handle_post embeds `MCPStreamableServer.handle_post` (lines 71-145):
the Origin gate, the Content-Type and Accept contracts, then batch or single
dispatch with SSE or JSON rendering.  A malformed JSON body (the outer
`except`) is outside the modelled domain: `body` is already decoded. -/
def handle_post (genId : String) (now : Nat) (clock : Nat → Nat)
    (origin : Option String) (content_type : String) (accept : String)
    (session_header : Option String) (body : PyBody) (sessions : Sessions) :
    HttpResponse × Sessions :=
  if origin_rejected origin then
    (jsonResp 403 (Json.obj [("error", Json.str "Unsafe origin")]), sessions)
  else if content_type != "application/json" then
    (jsonResp 400 (Json.obj [("error", Json.str "Content-Type must be application/json")]),
     sessions)
  else if !(strContains accept "application/json" || strContains accept "text/event-stream") then
    (jsonResp 400 (Json.obj
      [("error", Json.str "Accept header must include application/json or text/event-stream")]),
     sessions)
  else
    match body with
    | PyBody.batch msgs =>
        let pr := processMessages genId now session_header sessions msgs
        if msgs.any (fun m => hasKey m "method") then
          (create_sse_response clock pr.1 session_header, pr.2)
        else
          (⟨202, [], RespBody.empty⟩, pr.2)
    | PyBody.single m =>
        let pr := process_jsonrpc_message genId now m session_header sessions
        if hasKey m "method" then
          if strContains accept "text/event-stream" then
            (create_sse_response clock
              (if optObjTruthy pr.1 then [pr.1.getD []] else []) session_header, pr.2)
          else
            match pr.1 with
            | some r =>
                if (!r.isEmpty && pyTruthyJson (getKey r "_session_id")) then
                  (⟨200, [("Mcp-Session-Id", jsonAsStr (getKey r "_session_id"))],
                    RespBody.jsonBody (Json.obj (delKey r "_session_id"))⟩, pr.2)
                else
                  (jsonResp 200 (Json.obj r), pr.2)
            | none => (jsonResp 200 Json.null, pr.2)
        else
          (⟨202, [], RespBody.empty⟩, pr.2)

/-- handle_get embeds `MCPStreamableServer.handle_get` (lines 147-158):
no Origin check, no session lookup; only the Accept header is enforced. -/
def handle_get (clock : Nat → Nat) (accept : String) (session_header : Option String)
    (sessions : Sessions) : HttpResponse × Sessions :=
  if !strContains accept "text/event-stream" then
    (⟨405, [], RespBody.textBody "Method Not Allowed"⟩, sessions)
  else
    (create_sse_response clock [] session_header, sessions)

/-- handle_delete embeds `MCPStreamableServer.handle_delete` (lines 160-169). -/
def handle_delete (session_header : Option String) (sessions : Sessions) :
    HttpResponse × Sessions :=
  if pyTruthyStr session_header && hasSession sessions (session_header.getD "") then
    (⟨200, [], RespBody.empty⟩, delSession sessions (session_header.getD ""))
  else
    (⟨404, [], RespBody.textBody "Session not found"⟩, sessions)

/-- handle_options embeds `MCPStreamableServer.handle_options` (lines 59-69). -/
def handle_options : HttpResponse :=
  ⟨200,
   [("Access-Control-Allow-Origin", "*"),
    ("Access-Control-Allow-Methods", "GET, POST, DELETE, OPTIONS"),
    ("Access-Control-Allow-Headers", "Accept, Content-Type, Mcp-Session-Id, Last-Event-ID"),
    ("Access-Control-Max-Age", "86400")],
   RespBody.empty⟩

/-- HttpRequest models the inbound request surface read by the endpoint:
HTTP method, the headers the server consults, and the decoded body. -/
structure HttpRequest where
  http_method : String
  origin : Option String
  content_type : String
  accept : String
  session_header : Option String
  body : PyBody

/-- handle_mcp_endpoint embeds `MCPStreamableServer.handle_mcp_endpoint`
(lines 43-57): method routing on the single `/mcp` route. -/
def handle_mcp_endpoint (genId : String) (now : Nat) (clock : Nat → Nat)
    (req : HttpRequest) (sessions : Sessions) : HttpResponse × Sessions :=
  if req.http_method = "OPTIONS" then (handle_options, sessions)
  else if req.http_method = "POST" then
    handle_post genId now clock req.origin req.content_type req.accept
      req.session_header req.body sessions
  else if req.http_method = "GET" then
    handle_get clock req.accept req.session_header sessions
  else if req.http_method = "DELETE" then
    handle_delete req.session_header sessions
  else
    (jsonResp 405 (Json.obj [("error", Json.str "Method not allowed")]), sessions)

/-! Helper lemmas about the session table. -/

/-- Storing a record makes it retrievable under its identifier (Python dict
assignment semantics, overwrite included). -/
theorem lookup_setSession_self (sessions : Sessions) (sid : String) (v : Session) :
    List.lookup sid (setSession sessions sid v) = some v := by
  induction sessions with
  | nil => simp [setSession, List.lookup]
  | cons kv rest ih =>
      obtain ⟨k₀, v₀⟩ := kv
      by_cases h : k₀ = sid
      · simp [setSession, h, List.lookup]
      · have hb : (sid == k₀) = false := beq_eq_false_iff_ne.mpr (Ne.symm h)
        simp [setSession, h, List.lookup, hb, ih]

/-- hasSession holds after setSession. -/
theorem hasSession_setSession_self (sessions : Sessions) (sid : String) (v : Session) :
    hasSession (setSession sessions sid v) sid = true := by
  simp [hasSession, lookup_setSession_self]

/-- An identifier absent from the table differs from every stored key. -/
theorem not_mem_of_hasSession_false (sessions : Sessions) (sid : String)
    (h : hasSession sessions sid = false) : ∀ p ∈ sessions, p.1 ≠ sid := by
  induction sessions with
  | nil => simp
  | cons kv rest ih =>
      simp only [hasSession, lookupKey, List.lookup] at h
      intro p hp
      rcases hbeq : sid == kv.1 with _ | _
      · rw [hbeq] at h
        have h2 : hasSession rest sid = false := h
        rcases List.mem_cons.mp hp with rfl | hmem
        · exact fun hc => by simp [hc] at hbeq
        · exact ih h2 p hmem
      · exfalso
        rw [hbeq] at h
        simp at h

/-- Deleting an identifier removes it from the table. -/
theorem lookup_delSession_self (sessions : Sessions) (sid : String) :
    List.lookup sid (delSession sessions sid) = none := by
  induction sessions with
  | nil => rfl
  | cons kv rest ih =>
      obtain ⟨k₀, v₀⟩ := kv
      by_cases h : k₀ = sid
      · simp [delSession, h, List.filter] at ih ⊢
        exact ih
      · have hb : (k₀ != sid) = true := by simp [bne, h]
        have hb2 : (sid == k₀) = false := beq_eq_false_iff_ne.mpr (Ne.symm h)
        simp [delSession, List.filter, hb, List.lookup, hb2] at ih ⊢
        exact ih

/-- hasSession fails after deletion. -/
theorem hasSession_delSession_self (sessions : Sessions) (sid : String) :
    hasSession (delSession sessions sid) sid = false := by
  simp [hasSession, lookup_delSession_self]

/-! Helper lemmas about decimal rendering and frame identifiers. -/

/-- digitVal inverts digitCh on reduced digits. -/
def digitVal (c : Char) : Nat := c.toNat - 48

/-- digitsVal reads a digit list back as a number. -/
def digitsVal (l : List Char) : Nat := l.foldl (fun a c => 10 * a + digitVal c) 0

theorem digitsVal_append_singleton (l : List Char) (c : Char) :
    digitsVal (l ++ [c]) = 10 * digitsVal l + digitVal c := by
  simp [digitsVal, List.foldl_append]

theorem digitVal_digitCh (d : Nat) : digitVal (digitCh d) = d % 10 := by
  have h : d % 10 < 10 := Nat.mod_lt _ (by omega)
  unfold digitVal digitCh
  generalize d % 10 = e at h ⊢
  interval_cases e <;> decide

theorem digitCh_toNat (d : Nat) : (digitCh d).toNat = 48 + d % 10 := by
  have h : d % 10 < 10 := Nat.mod_lt _ (by omega)
  unfold digitCh
  generalize d % 10 = e at h ⊢
  interval_cases e <;> decide

theorem digitCh_ne_dash (d : Nat) : digitCh d ≠ '-' := by
  intro h
  have := congrArg Char.toNat h
  rw [digitCh_toNat] at this
  have h2 : ('-').toNat = 45 := by decide
  omega

theorem natDigitsCore_no_dash : ∀ (fuel n : Nat), ∀ c ∈ natDigitsCore fuel n, c ≠ '-' := by
  intro fuel
  induction fuel with
  | zero => simp [natDigitsCore]
  | succ fuel ih =>
      intro n c hc
      by_cases h : n < 10
      · simp [natDigitsCore, h] at hc
        subst hc
        exact digitCh_ne_dash n
      · simp only [natDigitsCore, if_neg h, List.mem_append, List.mem_singleton] at hc
        rcases hc with hc | hc
        · exact ih (n / 10) c hc
        · subst hc
          exact digitCh_ne_dash (n % 10)

theorem natDigitsCore_val : ∀ (fuel n : Nat), n < fuel →
    digitsVal (natDigitsCore fuel n) = n := by
  intro fuel
  induction fuel with
  | zero => omega
  | succ fuel ih =>
      intro n hn
      by_cases h : n < 10
      · have : digitVal (digitCh n) = n := by rw [digitVal_digitCh, Nat.mod_eq_of_lt h]
        simp [natDigitsCore, h, digitsVal, this]
      · have hdiv : n / 10 < n := Nat.div_lt_self (by omega) (by omega)
        rw [natDigitsCore, if_neg h, digitsVal_append_singleton, ih (n / 10) (by omega),
          digitVal_digitCh]
        omega

theorem natDigits_no_dash (n : Nat) : ∀ c ∈ natDigits n, c ≠ '-' :=
  natDigitsCore_no_dash (n + 1) n

theorem digitsVal_natDigits (n : Nat) : digitsVal (natDigits n) = n :=
  natDigitsCore_val (n + 1) n (by omega)

theorem append_dash_inj : ∀ (as cs bs ds : List Char),
    (∀ c ∈ as, c ≠ '-') → (∀ c ∈ cs, c ≠ '-') →
    as ++ '-' :: bs = cs ++ '-' :: ds → as = cs ∧ bs = ds := by
  intro as
  induction as with
  | nil =>
      intro cs bs ds _ hc h
      cases cs with
      | nil =>
          simp only [List.nil_append, List.cons.injEq, true_and] at h
          exact ⟨rfl, h⟩
      | cons c cs2 =>
          exfalso
          simp only [List.nil_append, List.cons_append, List.cons.injEq] at h
          exact hc c (List.mem_cons_self c cs2) h.1.symm
  | cons a as2 ih =>
      intro cs bs ds ha hc h
      cases cs with
      | nil =>
          exfalso
          simp only [List.cons_append, List.nil_append, List.cons.injEq] at h
          exact ha a (List.mem_cons_self a as2) h.1
      | cons c cs2 =>
          simp only [List.cons_append, List.cons.injEq] at h
          obtain ⟨h1, h2⟩ := h
          obtain ⟨e1, e2⟩ := ih cs2 bs ds (fun x hx => ha x (List.mem_cons_of_mem a hx))
            (fun x hx => hc x (List.mem_cons_of_mem c hx)) h2
          exact ⟨by rw [h1, e1], e2⟩

/-- Frame identifier strings determine the numeric time and index. -/
theorem frameId_inj (f g : SSEFrame) (h : frameId f = frameId g) :
    f.time = g.time ∧ f.index = g.index := by
  have hdata := congrArg String.data h
  simp only [frameId, natStr, String.data_append, List.append_assoc,
    List.singleton_append, List.cons_append, List.nil_append,
    List.cons.injEq, true_and] at hdata
  obtain ⟨e1, e2⟩ := append_dash_inj _ _ _ _ (natDigits_no_dash f.time)
    (natDigits_no_dash g.time) hdata
  constructor
  · have := congrArg digitsVal e1
    rwa [digitsVal_natDigits, digitsVal_natDigits] at this
  · have := congrArg digitsVal e2
    rwa [digitsVal_natDigits, digitsVal_natDigits] at this

/-! Helper lemmas about the SSE frame sequence. -/

theorem sseFramesFrom_mem (clock : Nat → Nat) :
    ∀ (ms : List Jobj) (i : Nat), ∀ g ∈ sseFramesFrom clock i ms,
      g.time = clock g.index ∧ i ≤ g.index := by
  intro ms
  induction ms with
  | nil => simp [sseFramesFrom]
  | cons m ms ih =>
      intro i g hg
      simp only [sseFramesFrom, List.mem_cons] at hg
      rcases hg with rfl | hg
      · exact ⟨rfl, Nat.le_refl i⟩
      · obtain ⟨h1, h2⟩ := ih (i + 1) g hg
        exact ⟨h1, by omega⟩

theorem sseFramesFrom_pairwise (clock : Nat → Nat)
    (hmono : ∀ i j, i ≤ j → clock i ≤ clock j) :
    ∀ (ms : List Jobj) (i : Nat), (sseFramesFrom clock i ms).Pairwise
      (fun f g => idLt (idPair f) (idPair g)) := by
  intro ms
  induction ms with
  | nil => intro i; simp [sseFramesFrom]
  | cons m ms ih =>
      intro i
      rw [sseFramesFrom]
      refine List.Pairwise.cons ?_ (ih (i + 1))
      intro g hg
      obtain ⟨ht, hi⟩ := sseFramesFrom_mem clock ms (i + 1) g hg
      have hle : clock i ≤ clock g.index := hmono _ _ (by omega)
      rcases Nat.lt_or_ge (clock i) (clock g.index) with hlt | hge
      · exact Or.inl (by simpa [idPair, ht] using hlt)
      · have heq : clock i = clock g.index := by omega
        exact Or.inr ⟨by simpa [idPair, ht] using heq, by simpa [idPair] using by omega⟩

/-! Helper lemmas about message processing. -/

/-- initMsg is a single JSON-RPC `initialize` request envelope. -/
def initMsg (rid : Json) (params : Jobj) : Jobj :=
  [("jsonrpc", Json.str "2.0"), ("id", rid),
   ("method", Json.str "initialize"), ("params", Json.obj params)]

/-- Processing `initialize` with no session id stores the generated id. -/
theorem process_initialize_no_header (genId : String) (now : Nat) (rid : Json)
    (params : Jobj) (sessions : Sessions) :
    process_jsonrpc_message genId now (initMsg rid params) none sessions
    = (some (initializeResult rid genId), setSession sessions genId (mkSession params now)) :=
  rfl

/-- Processing `initialize` with a non-empty session id reuses that id and
ignores the generated one. -/
theorem process_initialize_with_header (genId : String) (now : Nat) (rid : Json)
    (params : Jobj) (sid : String) (hsid : sid ≠ "") (sessions : Sessions) :
    process_jsonrpc_message genId now (initMsg rid params) (some sid) sessions
    = (some (initializeResult rid sid), setSession sessions sid (mkSession params now)) := by
  have ht : pyTruthyStr (some sid) = true := by simp [pyTruthyStr, bne, hsid]
  simp [process_jsonrpc_message, initMsg, handle_initialize, ht, hasKey,
    lookupKey, getKey, getKeyD, jsonEqStr, List.lookup]

/-- The stream header loop finds the session id of an initialize result. -/
theorem firstSessionId_initializeResult (rid : Json) (sid : String) (h : sid ≠ "") :
    firstSessionId [initializeResult rid sid] = some sid := by
  have hget : getKey (initializeResult rid sid) "_session_id" = Json.str sid := rfl
  simp [firstSessionId, hget, pyTruthyJson, jsonAsStr, bne, h]

/-- A POST of a single `initialize` with no session header: both renderings
expose the generated id and the session table gains the record. -/
theorem handle_post_initialize_no_header (genId : String) (now : Nat) (clock : Nat → Nat)
    (origin : Option String) (accept : String) (rid : Json) (params : Jobj)
    (sessions : Sessions)
    (horigin : origin_rejected origin = false)
    (haccept : (strContains accept "application/json"
        || strContains accept "text/event-stream") = true)
    (hgen : genId ≠ "") :
    handle_post genId now clock origin "application/json" accept none
      (PyBody.single (initMsg rid params)) sessions
    = ((if strContains accept "text/event-stream" then
          create_sse_response clock [initializeResult rid genId] none
        else ⟨200, [("Mcp-Session-Id", genId)],
          RespBody.jsonBody (Json.obj (delKey (initializeResult rid genId) "_session_id"))⟩),
       setSession sessions genId (mkSession params now)) := by
  have hkey : hasKey (initMsg rid params) "method" = true := rfl
  have hget : getKey (initializeResult rid genId) "_session_id" = Json.str genId := rfl
  have hne : (genId != "") = true := by simp [bne, hgen]
  have hempty : (initializeResult rid genId).isEmpty = false := rfl
  by_cases hsse : strContains accept "text/event-stream"
  · simp [handle_post, horigin, haccept, hsse, process_initialize_no_header, hkey,
      optObjTruthy, initializeResult]
  · have hsf : strContains accept "text/event-stream" = false := by simpa using hsse
    have hjson : strContains accept "application/json" = true := by
      cases hj : strContains accept "application/json"
      · rw [hj, hsf] at haccept
        simp at haccept
      · rfl
    simp [handle_post, horigin, haccept, hsse, hjson, process_initialize_no_header, hkey,
      hget, hempty, hne, pyTruthyJson, jsonAsStr]

/-- toolsCallMsg is a single JSON-RPC `tools/call` request envelope. -/
def toolsCallMsg (rid : Json) (params : Jobj) : Jobj :=
  [("jsonrpc", Json.str "2.0"), ("id", rid),
   ("method", Json.str "tools/call"), ("params", Json.obj params)]

/-- Processing a `tools/call` request defers to `handle_call_tool`, wrapping
an exception into a -32603 response. -/
theorem process_tools_call (genId : String) (now : Nat) (rid : Json) (params : Jobj)
    (sid : Option String) (sessions : Sessions) :
    process_jsonrpc_message genId now (toolsCallMsg rid params) sid sessions
    = (match handle_call_tool params rid with
       | Except.ok r => (some r, sessions)
       | Except.error e =>
           (some (errorResponse rid (-32603) ("Internal error: " ++ e)), sessions)) :=
  rfl

/-- A single-message POST accepted with plain JSON rendering returns the
processed response as a 200 JSON body when it has no `_session_id` field. -/
theorem handle_post_single_json_plain (genId : String) (now : Nat) (clock : Nat → Nat)
    (sid : Option String) (sessions : Sessions) (m r : Jobj)
    (hm : hasKey m "method" = true)
    (hpr : process_jsonrpc_message genId now m sid sessions = (some r, sessions))
    (hr : pyTruthyJson (getKey r "_session_id") = false) :
    handle_post genId now clock none "application/json" "application/json" sid
      (PyBody.single m) sessions = (jsonResp 200 (Json.obj r), sessions) := by
  have ha1 : strContains "application/json" "application/json" = true := rfl
  have ha2 : strContains "application/json" "text/event-stream" = false := rfl
  simp [handle_post, origin_rejected, pyTruthyStr, ha1, ha2, hm, hpr, hr]

/-! Claim theorems. -/

/-- C1: for every POST `initialize` carrying no `Mcp-Session-Id` header
(and passing the origin and header gates), the server stores a session
record under the freshly generated identifier (`str(uuid.uuid4())`,
modelled as the parameter `genId` with the freshness hypothesis that uuid4
provides), that identifier is distinct from every currently live session
identifier, it is communicated back in the `Mcp-Session-Id` header of the
JSON response or of the SSE stream response (never dropped), and a
subsequent `tools/list` using it succeeds with a result. -/
theorem initialize_fresh_session_confirmed
    (genId genId2 : String) (now now2 : Nat) (clock : Nat → Nat) (origin : Option String)
    (accept : String) (rid rid2 : Json) (params : Jobj) (sessions : Sessions)
    (horigin : origin_rejected origin = false)
    (haccept : (strContains accept "application/json"
        || strContains accept "text/event-stream") = true)
    (hfresh : hasSession sessions genId = false)
    (hgen : genId ≠ "") :
    (handle_post genId now clock origin "application/json" accept none
        (PyBody.single (initMsg rid params)) sessions).1.status = 200 ∧
    ("Mcp-Session-Id", genId) ∈
      (handle_post genId now clock origin "application/json" accept none
        (PyBody.single (initMsg rid params)) sessions).1.headers ∧
    (handle_post genId now clock origin "application/json" accept none
        (PyBody.single (initMsg rid params)) sessions).2
      = setSession sessions genId (mkSession params now) ∧
    hasSession (setSession sessions genId (mkSession params now)) genId = true ∧
    (∀ p ∈ sessions, p.1 ≠ genId) ∧
    (process_jsonrpc_message genId2 now2
        [("jsonrpc", Json.str "2.0"), ("id", rid2), ("method", Json.str "tools/list")]
        (some genId) (setSession sessions genId (mkSession params now))).1
      = some (handle_list_tools rid2) := by
  rw [handle_post_initialize_no_header genId now clock origin accept rid params sessions
    horigin haccept hgen]
  refine ⟨?_, ?_, rfl, hasSession_setSession_self _ _ _,
    not_mem_of_hasSession_false _ _ hfresh, rfl⟩
  · by_cases hsse : strContains accept "text/event-stream" <;>
      simp [hsse, create_sse_response]
  · by_cases hsse : strContains accept "text/event-stream"
    · simp [hsse, create_sse_response, firstSessionId_initializeResult rid genId hgen]
    · simp [hsse]

/-- Witness for C1: concrete initialize exchange on an empty session table. -/
theorem initialize_fresh_session_confirmed_witness :
    (origin_rejected none = false ∧
     (strContains "application/json" "application/json"
        || strContains "application/json" "text/event-stream") = true ∧
     hasSession ([] : Sessions) "sid-1" = false ∧
     "sid-1" ≠ "") ∧
    ((handle_post "sid-1" 0 (fun _ => 0) none "application/json" "application/json" none
        (PyBody.single (initMsg (Json.num 1) [])) []).1.status = 200 ∧
     ("Mcp-Session-Id", "sid-1") ∈
       (handle_post "sid-1" 0 (fun _ => 0) none "application/json" "application/json" none
         (PyBody.single (initMsg (Json.num 1) [])) []).1.headers ∧
     (handle_post "sid-1" 0 (fun _ => 0) none "application/json" "application/json" none
        (PyBody.single (initMsg (Json.num 1) [])) []).2
       = setSession [] "sid-1" (mkSession [] 0) ∧
     hasSession (setSession [] "sid-1" (mkSession [] 0)) "sid-1" = true ∧
     (∀ p ∈ ([] : Sessions), p.1 ≠ "sid-1") ∧
     (process_jsonrpc_message "g2" 0
         [("jsonrpc", Json.str "2.0"), ("id", Json.num 2), ("method", Json.str "tools/list")]
         (some "sid-1") (setSession [] "sid-1" (mkSession [] 0))).1
       = some (handle_list_tools (Json.num 2))) :=
  ⟨⟨rfl, rfl, rfl, by decide⟩,
   initialize_fresh_session_confirmed "sid-1" "g2" 0 0 (fun _ => 0) none
     "application/json" (Json.num 1) (Json.num 2) [] [] rfl rfl rfl (by decide)⟩

/-- notifMsg is a JSON-RPC notification: it has a `method` and no `id`. -/
def notifMsg : Jobj :=
  [("jsonrpc", Json.str "2.0"), ("method", Json.str "notifications/initialized")]

/-- C2 (code bug): a POST batch containing only notifications does NOT
receive HTTP 202 with an empty body.  `handle_post` tests the Python membership `method in msg`
and a notification carries a method, so the batch takes the SSE branch and
streams the spurious response generated for the notification; the comments
of the source (lines 114 and 117) state the 202 branch is the one for
notifications, contradicting the behaviour. -/
theorem notifications_only_batch_streams_response :
    (handle_post "g" 0 (fun _ => 0) none "application/json"
        "application/json, text/event-stream" none (PyBody.batch [notifMsg]) []).1.status
      = 200 ∧
    (handle_post "g" 0 (fun _ => 0) none "application/json"
        "application/json, text/event-stream" none (PyBody.batch [notifMsg]) []).1.body
      = RespBody.sseBody
          [⟨0, 0, errorResponse Json.null (-32601)
            "Method not found: notifications/initialized"⟩] ∧
    (handle_post "g" 0 (fun _ => 0) none "application/json"
        "application/json, text/event-stream" none (PyBody.batch [notifMsg]) []).1.status
      ≠ 202 :=
  ⟨rfl, rfl, by decide⟩

/-- C3 (code bug): `process_jsonrpc_message` classifies a message as a
request by the presence of `method` alone (line 174), so a Notification
(method, no id) is dispatched and produces a response — here the spurious
"Method not found" error with a null id — contradicting the claim that a
Notification never produces a Response.  The comment on line 202 shows the
author believed the method-less branch handles notifications. -/
theorem notification_produces_response :
    (process_jsonrpc_message "g" 0 notifMsg none []).1
      = some (errorResponse Json.null (-32601)
          "Method not found: notifications/initialized") ∧
    (process_jsonrpc_message "g" 0 notifMsg none []).1 ≠ none := by
  refine ⟨rfl, ?_⟩
  rw [show (process_jsonrpc_message "g" 0 notifMsg none []).1
      = some (errorResponse Json.null (-32601)
          "Method not found: notifications/initialized") from rfl]
  exact Option.some_ne_none _

/-- C4 (counterexample): a GET on the MCP route with a present, non-empty,
unsafe Origin is not rejected: `handle_get` performs no origin check and
answers 200 with a stream, so the claim fails for methods other than POST. -/
theorem get_request_bypasses_origin_check :
    is_safe_origin "http://evil.example" = false ∧
    (handle_mcp_endpoint "g" 0 (fun _ => 0)
        { http_method := "GET", origin := some "http://evil.example",
          content_type := "application/json", accept := "text/event-stream",
          session_header := none, body := PyBody.single [] } []).1.status = 200 ∧
    (handle_mcp_endpoint "g" 0 (fun _ => 0)
        { http_method := "GET", origin := some "http://evil.example",
          content_type := "application/json", accept := "text/event-stream",
          session_header := none, body := PyBody.single [] } []).1.status ≠ 403 :=
  ⟨rfl, rfl, by decide⟩

/-- C4 (amended): for POST requests, a present, non-empty Origin that is
neither in the loopback allow-list nor carries an allowed loopback prefix is
rejected with HTTP 403 before any session or message processing and the
session table is unchanged; an absent Origin passes the gate. -/
theorem post_unsafe_origin_rejected (o genId : String) (now : Nat)
    (clock : Nat → Nat) (content_type accept : String) (session_header : Option String)
    (body : PyBody) (sessions : Sessions)
    (h1 : o ≠ "") (h2 : is_safe_origin o = false) :
    handle_post genId now clock (some o) content_type accept session_header body sessions
      = (jsonResp 403 (Json.obj [("error", Json.str "Unsafe origin")]), sessions) ∧
    origin_rejected none = false := by
  have hrej : origin_rejected (some o) = true := by
    simp [origin_rejected, pyTruthyStr, bne, h1, h2]
  exact ⟨by simp [handle_post, hrej], rfl⟩

/-- Witness for C4 amended: a concrete evil origin on a POST. -/
theorem post_unsafe_origin_rejected_witness :
    ("http://evil.example" ≠ "" ∧ is_safe_origin "http://evil.example" = false) ∧
    (handle_post "g" 0 (fun _ => 0) (some "http://evil.example") "application/json"
        "application/json" none (PyBody.single []) []
      = (jsonResp 403 (Json.obj [("error", Json.str "Unsafe origin")]), []) ∧
     origin_rejected none = false) :=
  ⟨⟨by decide, rfl⟩,
   post_unsafe_origin_rejected "http://evil.example" "g" 0 (fun _ => 0)
     "application/json" "application/json" none (PyBody.single []) [] (by decide) rfl⟩

/-- C5: a Request whose `method` is none of the five supported methods gets
an error Response with code -32601 carrying the original request id, the
session table is untouched, and the exchange as a whole still completes with
HTTP 200. -/
theorem unknown_method_error_response (m : String) (message : Jobj) (genId : String)
    (now : Nat) (clock : Nat → Nat) (sid : Option String) (sessions : Sessions)
    (hm : lookupKey message "method" = some (Json.str m))
    (hnot : m ∉ ["initialize", "tools/list", "tools/call", "resources/list", "prompts/list"]) :
    (process_jsonrpc_message genId now message sid sessions).1
      = some (errorResponse (getKey message "id") (-32601) ("Method not found: " ++ m)) ∧
    (process_jsonrpc_message genId now message sid sessions).2 = sessions ∧
    lookupKey (errorResponse (getKey message "id") (-32601) ("Method not found: " ++ m)) "id"
      = some (getKey message "id") ∧
    (handle_post genId now clock none "application/json" "application/json" sid
        (PyBody.single message) sessions).1.status = 200 := by
  have hkey : hasKey message "method" = true := by simp [hasKey, hm]
  have hmj : getKey message "method" = Json.str m := by simp [getKey, hm]
  have hne1 : m ≠ "initialize" := by intro h; exact hnot (by rw [h]; simp)
  have hne2 : m ≠ "tools/list" := by intro h; exact hnot (by rw [h]; simp)
  have hne3 : m ≠ "tools/call" := by intro h; exact hnot (by rw [h]; simp)
  have hne4 : m ≠ "resources/list" := by intro h; exact hnot (by rw [h]; simp)
  have hne5 : m ≠ "prompts/list" := by intro h; exact hnot (by rw [h]; simp)
  have hb1 : (m == "initialize") = false := beq_eq_false_iff_ne.mpr hne1
  have hb2 : (m == "tools/list") = false := beq_eq_false_iff_ne.mpr hne2
  have hb3 : (m == "tools/call") = false := beq_eq_false_iff_ne.mpr hne3
  have hb4 : (m == "resources/list") = false := beq_eq_false_iff_ne.mpr hne4
  have hb5 : (m == "prompts/list") = false := beq_eq_false_iff_ne.mpr hne5
  have hpr : process_jsonrpc_message genId now message sid sessions
      = (some (errorResponse (getKey message "id") (-32601) ("Method not found: " ++ m)),
         sessions) := by
    simp [process_jsonrpc_message, hkey, hmj, jsonEqStr, hb1, hb2, hb3, hb4, hb5, pyStr]
  refine ⟨by rw [hpr], by rw [hpr], rfl, ?_⟩
  rw [handle_post_single_json_plain genId now clock sid sessions message
    (errorResponse (getKey message "id") (-32601) ("Method not found: " ++ m)) hkey hpr rfl]
  rfl

/-- Witness for C5: the unsupported method `foo`. -/
theorem unknown_method_error_response_witness :
    (lookupKey [("method", Json.str "foo"), ("id", Json.num 3)] "method"
        = some (Json.str "foo") ∧
     "foo" ∉ ["initialize", "tools/list", "tools/call", "resources/list", "prompts/list"]) ∧
    ((process_jsonrpc_message "g" 0 [("method", Json.str "foo"), ("id", Json.num 3)] none []).1
       = some (errorResponse (getKey [("method", Json.str "foo"), ("id", Json.num 3)] "id")
           (-32601) ("Method not found: " ++ "foo")) ∧
     (process_jsonrpc_message "g" 0 [("method", Json.str "foo"), ("id", Json.num 3)] none []).2
       = [] ∧
     lookupKey (errorResponse (getKey [("method", Json.str "foo"), ("id", Json.num 3)] "id")
         (-32601) ("Method not found: " ++ "foo")) "id"
       = some (getKey [("method", Json.str "foo"), ("id", Json.num 3)] "id") ∧
     (handle_post "g" 0 (fun _ => 0) none "application/json" "application/json" none
         (PyBody.single [("method", Json.str "foo"), ("id", Json.num 3)]) []).1.status = 200) :=
  ⟨⟨rfl, by decide⟩,
   unknown_method_error_response "foo" [("method", Json.str "foo"), ("id", Json.num 3)]
     "g" 0 (fun _ => 0) none [] rfl (by decide)⟩

/-- C6 (counterexample): a GET carrying an unknown `Mcp-Session-Id` does not
get HTTP 404 — `handle_get` never consults the session table and opens a 200
stream, so the GET half of the claim fails on the code. -/
theorem get_unknown_session_streams_ok :
    hasSession ([] : Sessions) "ghost" = false ∧
    (handle_mcp_endpoint "g" 0 (fun _ => 0)
        { http_method := "GET", origin := none, content_type := "application/json",
          accept := "text/event-stream", session_header := some "ghost",
          body := PyBody.single [] } []).1.status = 200 ∧
    (handle_mcp_endpoint "g" 0 (fun _ => 0)
        { http_method := "GET", origin := none, content_type := "application/json",
          accept := "text/event-stream", session_header := some "ghost",
          body := PyBody.single [] } []).1.status ≠ 404 :=
  ⟨rfl, rfl, by decide⟩

/-- C6 (amended): a DELETE with an unknown (or absent-valued) session id
returns HTTP 404 and changes nothing; a DELETE of a live session returns 200
and a repeated DELETE of the same id then returns 404.  GET and POST perform
no session validation: a GET with a stream Accept succeeds no matter the
session id, and a POST `tools/list` under any (e.g. already deleted) session
id still completes with 200. -/
theorem delete_session_lifecycle (sid sid2 genId : String)
    (sessions sessions2 : Sessions) (now : Nat) (clock : Nat → Nat)
    (h : hasSession sessions sid = false)
    (h2a : sid2 ≠ "") (h2b : hasSession sessions2 sid2 = true) :
    handle_delete (some sid) sessions
      = (⟨404, [], RespBody.textBody "Session not found"⟩, sessions) ∧
    (handle_delete (some sid2) sessions2).1.status = 200 ∧
    (handle_delete (some sid2) (handle_delete (some sid2) sessions2).2).1.status = 404 ∧
    (handle_get clock "text/event-stream" (some sid) sessions).1.status = 200 ∧
    (handle_post genId now clock none "application/json" "application/json" (some sid)
        (PyBody.single [("jsonrpc", Json.str "2.0"), ("id", Json.num 9),
          ("method", Json.str "tools/list")]) sessions).1.status = 200 := by
  have hd404 : handle_delete (some sid) sessions
      = (⟨404, [], RespBody.textBody "Session not found"⟩, sessions) := by
    simp [handle_delete, h]
  have htruthy : pyTruthyStr (some sid2) = true := by simp [pyTruthyStr, bne, h2a]
  have hd : handle_delete (some sid2) sessions2
      = (⟨200, [], RespBody.empty⟩, delSession sessions2 sid2) := by
    simp [handle_delete, htruthy, h2b]
  have hpr : process_jsonrpc_message genId now
      [("jsonrpc", Json.str "2.0"), ("id", Json.num 9), ("method", Json.str "tools/list")]
      (some sid) sessions = (some (handle_list_tools (Json.num 9)), sessions) := rfl
  refine ⟨hd404, by rw [hd], ?_, rfl, ?_⟩
  · rw [hd]
    simp [handle_delete, hasSession_delSession_self]
  · rw [handle_post_single_json_plain genId now clock (some sid) sessions
      [("jsonrpc", Json.str "2.0"), ("id", Json.num 9), ("method", Json.str "tools/list")]
      (handle_list_tools (Json.num 9)) rfl hpr rfl]
    rfl

/-- Witness for C6 amended: a ghost id on an empty table and a live id. -/
theorem delete_session_lifecycle_witness :
    (hasSession ([] : Sessions) "ghost" = false ∧ "live" ≠ "" ∧
     hasSession [("live", mkSession [] 0)] "live" = true) ∧
    (handle_delete (some "ghost") []
       = (⟨404, [], RespBody.textBody "Session not found"⟩, []) ∧
     (handle_delete (some "live") [("live", mkSession [] 0)]).1.status = 200 ∧
     (handle_delete (some "live")
        (handle_delete (some "live") [("live", mkSession [] 0)]).2).1.status = 404 ∧
     (handle_get (fun _ => 0) "text/event-stream" (some "ghost") []).1.status = 200 ∧
     (handle_post "g" 0 (fun _ => 0) none "application/json" "application/json" (some "ghost")
         (PyBody.single [("jsonrpc", Json.str "2.0"), ("id", Json.num 9),
           ("method", Json.str "tools/list")]) []).1.status = 200) :=
  ⟨⟨rfl, by decide, rfl⟩,
   delete_session_lifecycle "ghost" "live" "g" [] [("live", mkSession [] 0)] 0 (fun _ => 0)
     rfl (by decide) rfl⟩

/-- C7: a `tools/call` naming an unregistered tool yields a JSON-RPC error
Response carrying the original request id, wrapped in an ordinary successful
exchange: `handle_call_tool` returns normally (no exception) and the POST
completes with HTTP 200, not an HTTP failure. -/
theorem unknown_tool_jsonrpc_error (params : Jobj) (rid : Json) (genId : String)
    (now : Nat) (clock : Nat → Nat) (sid : Option String) (sessions : Sessions)
    (h1 : jsonEqStr (getKey params "name") "search_documents" = false)
    (h2 : jsonEqStr (getKey params "name") "get_server_info" = false) :
    handle_call_tool params rid
      = Except.ok (errorResponse rid (-32601)
          ("Unknown tool: " ++ pyStr (getKey params "name"))) ∧
    lookupKey (errorResponse rid (-32601)
        ("Unknown tool: " ++ pyStr (getKey params "name"))) "id" = some rid ∧
    hasKey (errorResponse rid (-32601)
        ("Unknown tool: " ++ pyStr (getKey params "name"))) "error" = true ∧
    (handle_post genId now clock none "application/json" "application/json" sid
        (PyBody.single (toolsCallMsg rid params)) sessions).1.status = 200 := by
  have hcall : handle_call_tool params rid
      = Except.ok (errorResponse rid (-32601)
          ("Unknown tool: " ++ pyStr (getKey params "name"))) := by
    simp [handle_call_tool, h1, h2]
  have hpr : process_jsonrpc_message genId now (toolsCallMsg rid params) sid sessions
      = (some (errorResponse rid (-32601)
          ("Unknown tool: " ++ pyStr (getKey params "name"))), sessions) := by
    rw [process_tools_call, hcall]
  refine ⟨hcall, rfl, rfl, ?_⟩
  rw [handle_post_single_json_plain genId now clock sid sessions (toolsCallMsg rid params)
    (errorResponse rid (-32601) ("Unknown tool: " ++ pyStr (getKey params "name"))) rfl hpr rfl]
  rfl

/-- Witness for C7: the unregistered tool name `bogus`. -/
theorem unknown_tool_jsonrpc_error_witness :
    (jsonEqStr (getKey [("name", Json.str "bogus")] "name") "search_documents" = false ∧
     jsonEqStr (getKey [("name", Json.str "bogus")] "name") "get_server_info" = false) ∧
    (handle_call_tool [("name", Json.str "bogus")] (Json.num 7)
       = Except.ok (errorResponse (Json.num 7) (-32601)
           ("Unknown tool: " ++ pyStr (getKey [("name", Json.str "bogus")] "name"))) ∧
     lookupKey (errorResponse (Json.num 7) (-32601)
         ("Unknown tool: " ++ pyStr (getKey [("name", Json.str "bogus")] "name"))) "id"
       = some (Json.num 7) ∧
     hasKey (errorResponse (Json.num 7) (-32601)
         ("Unknown tool: " ++ pyStr (getKey [("name", Json.str "bogus")] "name"))) "error"
       = true ∧
     (handle_post "g" 0 (fun _ => 0) none "application/json" "application/json" none
         (PyBody.single (toolsCallMsg (Json.num 7) [("name", Json.str "bogus")])) []).1.status
       = 200) :=
  ⟨⟨rfl, rfl⟩,
   unknown_tool_jsonrpc_error [("name", Json.str "bogus")] (Json.num 7) "g" 0 (fun _ => 0)
     none [] rfl rfl⟩

/-- A `search_documents` call resolves to the sliced mock results. -/
theorem handle_call_tool_search (params args : Jobj) (rid : Json) (q : String) (limit : Int)
    (hname : getKey params "name" = Json.str "search_documents")
    (hargs : getKeyD params "arguments" (Json.obj []) = Json.obj args)
    (hq : getKeyD args "query" (Json.str "") = Json.str q)
    (hl : jsonInt? (getKeyD args "limit" (Json.num 5)) = some limit) :
    handle_call_tool params rid
      = Except.ok (toolTextResponse rid (jsonRender (Json.arr (search_results q limit)))) := by
  simp [handle_call_tool, hname, hargs, hq, hl, jsonEqStr, pyStr]

/-- searchArgs is the arguments object of the C8 scenario. -/
def searchArgs (q : String) (limit : Int) : Jobj :=
  [("query", Json.str q), ("limit", Json.num (limit : Rat))]

/-- searchParams is the `tools/call` params object of the C8 scenario. -/
def searchParams (q : String) (limit : Int) : Jobj :=
  [("name", Json.str "search_documents"), ("arguments", Json.obj (searchArgs q limit))]

/-- C8: a `tools/call` of `search_documents` with a non-negative integer
`limit` returns at most `limit` result items (the slice of the mock list),
delivered inside the single text content item of a normal result Response,
and the POST exchange completes with HTTP 200. -/
theorem search_documents_limit_bound (q : String) (limit : Int) (rid : Json)
    (genId : String) (now : Nat) (clock : Nat → Nat) (sid : Option String)
    (sessions : Sessions) (hlim : 0 ≤ limit) :
    ((search_results q limit).length : Int) ≤ limit ∧
    handle_call_tool (searchParams q limit) rid
      = Except.ok (toolTextResponse rid (jsonRender (Json.arr (search_results q limit)))) ∧
    (handle_post genId now clock none "application/json" "application/json" sid
        (PyBody.single (toolsCallMsg rid (searchParams q limit))) sessions).1.status
      = 200 := by
  have hmin : (search_results q limit).length = min limit.toNat (mock_results q).length := by
    simp [search_results, pySliceTo, hlim, List.length_take]
  have htn := Int.toNat_of_nonneg hlim
  have hcall : handle_call_tool (searchParams q limit) rid
      = Except.ok (toolTextResponse rid (jsonRender (Json.arr (search_results q limit)))) :=
    handle_call_tool_search (searchParams q limit) (searchArgs q limit) rid q limit rfl rfl rfl
      (by rw [show getKeyD (searchArgs q limit) "limit" (Json.num 5)
                = Json.num (limit : Rat) from rfl]
          simp [jsonInt?, Rat.den_intCast, Rat.num_intCast])
  have hpr : process_jsonrpc_message genId now (toolsCallMsg rid (searchParams q limit))
      sid sessions
      = (some (toolTextResponse rid (jsonRender (Json.arr (search_results q limit)))),
         sessions) := by
    rw [process_tools_call, hcall]
  refine ⟨by omega, hcall, ?_⟩
  rw [handle_post_single_json_plain genId now clock sid sessions
    (toolsCallMsg rid (searchParams q limit))
    (toolTextResponse rid (jsonRender (Json.arr (search_results q limit)))) rfl hpr rfl]
  rfl

/-- Witness for C8: query `x` with limit 1. -/
theorem search_documents_limit_bound_witness :
    (0 : Int) ≤ 1 ∧
    (((search_results "x" 1).length : Int) ≤ 1 ∧
     handle_call_tool (searchParams "x" 1) (Json.num 2)
       = Except.ok (toolTextResponse (Json.num 2)
           (jsonRender (Json.arr (search_results "x" 1)))) ∧
     (handle_post "g" 0 (fun _ => 0) none "application/json" "application/json" none
         (PyBody.single (toolsCallMsg (Json.num 2) (searchParams "x" 1))) []).1.status
       = 200) :=
  ⟨by decide,
   search_documents_limit_bound "x" 1 (Json.num 2) "g" 0 (fun _ => 0) none [] (by decide)⟩

/-- C9: within one SSE stream the emitted frame identifiers are pairwise
distinct, and strictly increasing in emission order in the numeric
(time, index) content of the `msg-{time}-{index}` token, under the
hypothesis that the event-loop clock sampled across iterations is monotone
(the asyncio event-loop clock is); and each frame consists of an `id:`
line, then a `data:` line carrying the serialized message, then a
blank-line terminator. -/
theorem sse_frame_ids_unique_increasing (clock : Nat → Nat) (messages : List Jobj)
    (hmono : ∀ i j, i ≤ j → clock i ≤ clock j) :
    (sseFrames clock messages).Pairwise
      (fun f g => idLt (idPair f) (idPair g) ∧ frameId f ≠ frameId g) ∧
    ∀ f ∈ sseFrames clock messages,
      frameText f = "id: " ++ frameId f ++ "\ndata: "
        ++ jsonRender (Json.obj f.message) ++ "\n\n" := by
  constructor
  · refine List.Pairwise.imp ?_ (sseFramesFrom_pairwise clock hmono messages 0)
    intro f g hlt
    refine ⟨hlt, ?_⟩
    intro heq
    obtain ⟨ht, hi⟩ := frameId_inj f g heq
    simp only [idLt, idPair] at hlt
    omega
  · intro f _
    rfl

/-- Witness for C9: a constant clock over a two-message stream. -/
theorem sse_frame_ids_unique_increasing_witness :
    (∀ i j : Nat, i ≤ j → (fun _ => 7) i ≤ ((fun _ => 7) : Nat → Nat) j) ∧
    ((sseFrames (fun _ => 7) [[("a", Json.null)], [("b", Json.null)]]).Pairwise
       (fun f g => idLt (idPair f) (idPair g) ∧ frameId f ≠ frameId g) ∧
     ∀ f ∈ sseFrames (fun _ => 7) [[("a", Json.null)], [("b", Json.null)]],
       frameText f = "id: " ++ frameId f ++ "\ndata: "
         ++ jsonRender (Json.obj f.message) ++ "\n\n") :=
  ⟨fun _ _ _ => Nat.le_refl 7,
   sse_frame_ids_unique_increasing (fun _ => 7) [[("a", Json.null)], [("b", Json.null)]]
     (fun _ _ _ => Nat.le_refl 7)⟩

/-- C10 (counterexample): a POST `initialize` carrying an EMPTY
`Mcp-Session-Id` header does generate a fresh identifier: Python truthiness
treats the empty string like an absent header (line 220, `if not session_id`),
so the record is stored under the generated identifier, not under the
client-supplied one, and the echoed id differs from the supplied one. -/
theorem initialize_empty_header_generates_fresh :
    ( handle_initialize "fresh" 0 [] (Json.num 1) (some "") []).1
      = initializeResult (Json.num 1) "fresh" ∧
    lookupKey ( handle_initialize "fresh" 0 [] (Json.num 1) (some "") []).1 "_session_id"
      = some (Json.str "fresh") ∧
    hasSession ( handle_initialize "fresh" 0 [] (Json.num 1) (some "") []).2 "" = false ∧
    hasSession ( handle_initialize "fresh" 0 [] (Json.num 1) (some "") []).2 "fresh" = true ∧
    "fresh" ≠ "" :=
  ⟨rfl, rfl, rfl, rfl, by decide⟩

/-- A POST of a single `initialize` carrying a non-empty session header:
the supplied id is reused for storage and echoed in both renderings. -/
theorem handle_post_initialize_with_header (genId : String) (now : Nat) (clock : Nat → Nat)
    (accept : String) (rid : Json) (params : Jobj) (sessions : Sessions) (sid : String)
    (hsid : sid ≠ "")
    (haccept : (strContains accept "application/json"
        || strContains accept "text/event-stream") = true) :
    handle_post genId now clock none "application/json" accept (some sid)
      (PyBody.single (initMsg rid params)) sessions
    = ((if strContains accept "text/event-stream" then
          create_sse_response clock [initializeResult rid sid] (some sid)
        else ⟨200, [("Mcp-Session-Id", sid)],
          RespBody.jsonBody (Json.obj (delKey (initializeResult rid sid) "_session_id"))⟩),
       setSession sessions sid (mkSession params now)) := by
  have hkey : hasKey (initMsg rid params) "method" = true := rfl
  have hget : getKey (initializeResult rid sid) "_session_id" = Json.str sid := rfl
  have hne : (sid != "") = true := by simp [bne, hsid]
  have hempty : (initializeResult rid sid).isEmpty = false := rfl
  have hpr := process_initialize_with_header genId now rid params sid hsid sessions
  by_cases hsse : strContains accept "text/event-stream"
  · simp [handle_post, origin_rejected, pyTruthyStr, haccept, hsse, hpr, hkey,
      optObjTruthy, initializeResult]
  · have hsf : strContains accept "text/event-stream" = false := by simpa using hsse
    have hjson : strContains accept "application/json" = true := by
      cases hj : strContains accept "application/json"
      · rw [hj, hsf] at haccept
        simp at haccept
      · rfl
    simp [handle_post, origin_rejected, pyTruthyStr, haccept, hsse, hjson, hpr, hkey,
      hget, hempty, hne, pyTruthyJson, jsonAsStr]

/-- C10 (amended): if a POST `initialize` carries a NON-EMPTY
`Mcp-Session-Id` header, the server does not use a fresh identifier — the
whole exchange is independent of the generated id — it stores (or silently
overwrites) the session record under the exact client-supplied identifier,
whether or not a session with that identifier already existed, and echoes
that same identifier back in the response header of the JSON rendering. -/
theorem initialize_nonempty_header_reuses_id (sid genId1 genId2 : String)
    (now : Nat) (clock : Nat → Nat) (accept : String) (rid : Json) (params : Jobj)
    (sessions : Sessions) (hsid : sid ≠ "")
    (haccept : (strContains accept "application/json"
        || strContains accept "text/event-stream") = true) :
    handle_post genId1 now clock none "application/json" accept (some sid)
        (PyBody.single (initMsg rid params)) sessions
      = handle_post genId2 now clock none "application/json" accept (some sid)
        (PyBody.single (initMsg rid params)) sessions ∧
    (handle_post genId1 now clock none "application/json" accept (some sid)
        (PyBody.single (initMsg rid params)) sessions).2
      = setSession sessions sid (mkSession params now) ∧
    List.lookup sid (setSession sessions sid (mkSession params now))
      = some (mkSession params now) ∧
    (handle_post genId1 now clock none "application/json" "application/json" (some sid)
        (PyBody.single (initMsg rid params)) sessions).1.headers
      = [("Mcp-Session-Id", sid)] := by
  have h1 := handle_post_initialize_with_header genId1 now clock accept rid params
    sessions sid hsid haccept
  have h2 := handle_post_initialize_with_header genId2 now clock accept rid params
    sessions sid hsid haccept
  have hjson : (strContains "application/json" "application/json"
      || strContains "application/json" "text/event-stream") = true := rfl
  have h3 := handle_post_initialize_with_header genId1 now clock "application/json" rid params
    sessions sid hsid hjson
  refine ⟨h1.trans h2.symm, by rw [h1], lookup_setSession_self sessions sid _, ?_⟩
  rw [h3]
  rfl

/-- Witness for C10 amended: the client-supplied id `abc` with two different
generated ids. -/
theorem initialize_nonempty_header_reuses_id_witness :
    ("abc" ≠ "" ∧ (strContains "application/json" "application/json"
        || strContains "application/json" "text/event-stream") = true) ∧
    (handle_post "g1" 0 (fun _ => 0) none "application/json" "application/json" (some "abc")
        (PyBody.single (initMsg (Json.num 1) [])) []
      = handle_post "g2" 0 (fun _ => 0) none "application/json" "application/json" (some "abc")
        (PyBody.single (initMsg (Json.num 1) [])) [] ∧
     (handle_post "g1" 0 (fun _ => 0) none "application/json" "application/json" (some "abc")
        (PyBody.single (initMsg (Json.num 1) [])) []).2
      = setSession [] "abc" (mkSession [] 0) ∧
     List.lookup "abc" (setSession [] "abc" (mkSession [] 0)) = some (mkSession [] 0) ∧
     (handle_post "g1" 0 (fun _ => 0) none "application/json" "application/json" (some "abc")
        (PyBody.single (initMsg (Json.num 1) [])) []).1.headers
      = [("Mcp-Session-Id", "abc")]) :=
  ⟨⟨by decide, rfl⟩,
   initialize_nonempty_header_reuses_id "abc" "g1" "g2" 0 (fun _ => 0) "application/json"
     (Json.num 1) [] [] (by decide) rfl⟩

end MCPServer
